import Mathlib

/-!
Verification of `qbo_receipt_processor2.py` against its specification.

The Python source is embedded shallowly: pure functions become Lean
functions, the stateful callback/login flow becomes an explicit event
trace, JSON documents become an inductive `JsonVal`, Python `dict`s
become association lists with Python insertion/update semantics, and
values that may be `None` become `Option`.
-/

set_option autoImplicit false

namespace QboReceipt

/-! ## JSON values

Minimal JSON model: the token file and the report bodies handled by the
script only contain objects, strings and `null`. -/

inductive JsonVal where
  | str (s : String)
  | null
  | obj (fields : List (String × JsonVal))

/-- Python `d[k]` on a dict: the value at the key, or a `KeyError`. -/
def jsonGet (j : JsonVal) (k : String) : Except String JsonVal :=
  match j with
  | .obj fs =>
    match fs.find? (fun p => p.1 == k) with
    | some p => .ok p.2
    | none => .error ("KeyError: " ++ k)
  | _ => .error "TypeError: not a JSON object"

/-! ## Python dict semantics

`dict(zip(cols, values))` builds a dict by inserting the pairs left to
right; a repeated key keeps its original position but takes the last
value.  We model a dict as an association list in insertion order. -/

def dictInsert (d : List (String × Option String)) (k : String)
    (v : Option String) : List (String × Option String) :=
  if d.any (fun p => p.1 == k) then
    d.map (fun p => if p.1 == k then (k, v) else p)
  else
    d ++ [(k, v)]

def pyDict (ps : List (String × Option String)) :
    List (String × Option String) :=
  ps.foldl (fun d p => dictInsert d p.1 p.2) []

/-! ## Report documents (TransactionList JSON)

`report_json.get("Columns", {}).get("Column", [])` yields `[]` whenever
either key is missing, so the two nested lookups collapse into one
`Option`; likewise for `Rows`/`Row` and for `row.get("ColData", [])`.
`c["ColTitle"]` is a direct (non-defaulted) access, so a column entry
carries its title; `c.get("value")` and `row.get("type")` default to
`None`, hence `Option`. -/

structure ColDef where
  colTitle : String
  deriving Repr, DecidableEq

structure CellData where
  value : Option String := none
  deriving Repr, DecidableEq

structure RowData where
  type : Option String := none
  colData : Option (List CellData) := none
  deriving Repr, DecidableEq

structure ReportJson where
  columns : Option (List ColDef) := none
  rows : Option (List RowData) := none
  deriving Repr, DecidableEq

/-- The column titles of a report, in report order
(`[c["ColTitle"] for c in report_json.get("Columns", {}).get("Column", [])]`). -/
def colTitles (r : ReportJson) : List String :=
  (r.columns.getD []).map (fun c => c.colTitle)

/-- Embedding of `parse_transaction_list` (lines 132-143): keep the rows
whose `type` is `"Data"` and turn each into `dict(zip(cols, values))`. -/
def parse_transaction_list (report_json : ReportJson) :
    List (List (String × Option String)) :=
  ((report_json.rows.getD []).filter (fun row => row.type == some "Data")).map
    (fun row =>
      pyDict (List.zip (colTitles report_json)
        ((row.colData.getD []).map (fun c => c.value))))

/-- A valid report document: pairwise distinct column titles, and every
data row carries exactly one cell per column. -/
def ValidReport (r : ReportJson) : Prop :=
  (colTitles r).Nodup ∧
  ∀ row ∈ r.rows.getD [], row.type = some "Data" →
    (row.colData.getD []).length = (colTitles r).length

instance (r : ReportJson) : Decidable (ValidReport r) := by
  unfold ValidReport; infer_instance

/-! ## Credential store (`_get_secret`, lines 33-35)

`os.getenv` returns the variable's value or `None`; `keyring.get_password`
returns the stored secret or `None`.  Both are passed in as oracles.
Python `x or y` returns `x` when `x` is truthy (a non-empty string) and
`y` otherwise. -/

def SERVICE : String := "qbo_receipt_processor"

/-- Python `str.upper()`, character-wise (the secret names fed to it
are plain ASCII identifiers). -/
def pyUpper (s : String) : String := String.mk (s.data.map Char.toUpper)

/-- Python `x or y` on `str | None` values: `x` unless it is `None` or
the empty string. -/
def pyOr (x y : Option String) : Option String :=
  match x with
  | some v => if v = "" then y else some v
  | none => y

/-- Python truthiness of a `str | None` value. -/
def pyTruthy (x : Option String) : Bool :=
  match x with
  | some v => v ≠ ""
  | none => false

/-- Embedding of `_get_secret`:
`os.getenv(f"QBO_{name.upper()}") or keyring.get_password(SERVICE, name)`. -/
def _get_secret (env : String → Option String)
    (vault : String → String → Option String) (name : String) :
    Option String :=
  pyOr (env ("QBO_" ++ pyUpper name)) (vault SERVICE name)

/-! ## Auth client construction (`get_auth_client`, lines 52-70)

The process-global `auth_client` cache is passed explicitly; `raise
SystemExit(msg)` becomes `Except.error msg`.  Constructing an
`AuthClient` performs no network call, and on the error path no
`AuthClient` value exists at all. -/

structure AuthClient where
  client_id : String
  client_secret : String
  environment : String
  redirect_uri : String
  deriving Repr, DecidableEq

def MISSING_KEYS_MSG : String :=
  "Missing CLIENT_ID/CLIENT_SECRET.\n" ++
  "Run:  python qbo_min.py setkeys   (stores them in your OS keychain)\n" ++
  "Or set env vars QBO_CLIENT_ID / QBO_CLIENT_SECRET."

/-- Embedding of `get_auth_client`.  `if not cid or not cs` fails for a
Python-falsy value, i.e. `None` or the empty string. -/
def get_auth_client (cached : Option AuthClient)
    (env : String → Option String)
    (vault : String → String → Option String)
    (ENV REDIRECT_URI : String) : Except String AuthClient :=
  match cached with
  | some ac => .ok ac
  | none =>
    let cid := _get_secret env vault "client_id"
    let cs := _get_secret env vault "client_secret"
    if !pyTruthy cid || !pyTruthy cs then
      .error MISSING_KEYS_MSG
    else
      .ok { client_id := cid.getD "", client_secret := cs.getD "",
            environment := ENV, redirect_uri := REDIRECT_URI }

/-! ## Callback handler and login flow (`CB.do_GET` lines 72-87,
`login` lines 89-94)

The handler's side effects are recorded as an event trace in program
order.  The token exchange (`get_auth_client()` + `get_bearer_token`)
can fail, which in the source raises out of the handler; the outcome is
an oracle parameter.  `HTTPServer(...).handle_request()` serves exactly
one request and returns (Python stdlib semantics, as the source comment
`# serve single callback` states), so only the first pending request is
ever handled. -/

def OK_BODY : String := "OK, you can close this tab."

inductive CbEvent where
  | respond (status : Nat) (body : String)
  | exchange (code realmId : Option String)
  | writeTokens (access refresh : String) (realmId : Option String)
  deriving Repr, DecidableEq

def CbEvent.isRespond : CbEvent → Bool
  | .respond _ _ => true
  | _ => false

def CbEvent.isExchange : CbEvent → Bool
  | .exchange _ _ => true
  | _ => false

/-- Outcome of the `code -> tokens` exchange attempted by the handler:
`get_auth_client()` may exit (missing secrets), `get_bearer_token` may
raise, or it succeeds and yields the token pair. -/
inductive ExchangeOutcome where
  | authFail
  | exchangeFail
  | success (access refresh : String)
  deriving Repr, DecidableEq

/-- First value for a key in a parsed query string:
`qs.get(k, [None])[0]`. -/
def qsFirst (qs : List (String × String)) (k : String) : Option String :=
  ((qs.filter (fun p => p.1 == k)).map (fun p => p.2)).head?

/-- Embedding of `CB.do_GET` as its trace of side effects: the fixed
200 response is written first; then the exchange is attempted; only a
successful exchange reaches the token-file write. -/
def do_GET (qs : List (String × String)) (o : ExchangeOutcome) :
    List CbEvent :=
  let code := qsFirst qs "code"
  let realm_id := qsFirst qs "realmId"
  CbEvent.respond 200 OK_BODY ::
    match o with
    | .authFail => []
    | .exchangeFail => [CbEvent.exchange code realm_id]
    | .success a r =>
      [CbEvent.exchange code realm_id, CbEvent.writeTokens a r realm_id]

/-- One incoming callback request: its parsed query string and the
outcome its exchange would have. -/
structure CallbackRequest where
  qs : List (String × String)
  outcome : ExchangeOutcome
  deriving Repr, DecidableEq

inductive LoginEvent where
  | openBrowser
  | cb (e : CbEvent)
  deriving Repr, DecidableEq

/-- Embedding of `login`: if `get_auth_client()` exits nothing happens;
otherwise the browser is opened and `handle_request()` serves exactly
the first pending callback request through `CB.do_GET`. -/
def login (authOk : Bool) (pending : List CallbackRequest) :
    List LoginEvent :=
  if authOk then
    LoginEvent.openBrowser ::
      match pending with
      | [] => []
      | r :: _ => (do_GET r.qs r.outcome).map LoginEvent.cb
  else []

/-- Number of token exchanges in a login trace. -/
def exchangeCount (es : List LoginEvent) : Nat :=
  es.countP (fun e =>
    match e with
    | .cb c => c.isExchange
    | _ => false)

/-! ## Token file (`tokens.json`)

`json.dump(..., f)` after `open("tokens.json", "w")` truncates the file
and writes the serialized object; `json.load` parses it back.  The file
is modelled at the JSON-value level (`None` when the file does not
exist), with `dump`/`load` as inverse serialization per the `json`
library contract. -/

def optStrJson : Option String → JsonVal
  | some s => .str s
  | none => .null

/-- The object written by `CB.do_GET` (lines 82-87). -/
def save_tokens (access refresh : String) (realm_id : Option String) :
    JsonVal :=
  .obj [("access_token", .str access), ("refresh_token", .str refresh),
        ("realm_id", optStrJson realm_id)]

/-- Writing `tokens.json`: mode `"w"` discards any prior content. -/
def write_token_file (_prior : Option JsonVal) (access refresh : String)
    (realm_id : Option String) : Option JsonVal :=
  some (save_tokens access refresh realm_id)

/-- `open("tokens.json")` + `json.load`: a missing file is a
`FileNotFoundError`. -/
def load_tokens (file : Option JsonVal) : Except String JsonVal :=
  match file with
  | none => .error "FileNotFoundError: tokens.json"
  | some j => .ok j

/-! ## Report client (`company_info_raw` lines 96-106,
`get_transactions` lines 118-130)

Both functions pick the base URL with the same inline conditional on
`ENV`.  `requests.get` is an oracle from the URL to the response;
`r.raise_for_status()` raises exactly for statuses in `[400, 600)`
(4xx client errors and 5xx server errors — the `requests` contract);
`r.json()` raises when the body is not valid JSON. -/

/-- Python `f"{x}"` on a loaded JSON value (`None` prints as `"None"`). -/
def pyStr : JsonVal → String
  | .str s => s
  | .null => "None"
  | .obj _ => "<dict>"

/-- Base URL as selected in `company_info_raw` (lines 99-100). -/
def company_info_base (ENV : String) : String :=
  if ENV = "sandbox" then "https://sandbox-quickbooks.api.intuit.com"
  else "https://quickbooks.api.intuit.com"

/-- Base URL as selected in `get_transactions` (lines 121-122), a
textual duplicate of the conditional in `company_info_raw`. -/
def get_transactions_base (ENV : String) : String :=
  if ENV = "sandbox" then "https://sandbox-quickbooks.api.intuit.com"
  else "https://quickbooks.api.intuit.com"

def company_info_url (ENV realm : String) : String :=
  company_info_base ENV ++ "/v3/company/" ++ realm ++ "/companyinfo/" ++
    realm ++ "?minorversion=75"

def get_transactions_url (ENV realm startDate endDate : String) : String :=
  get_transactions_base ENV ++ "/v3/company/" ++ realm ++
    "/reports/TransactionList?start_date=" ++ startDate ++
    "&end_date=" ++ endDate ++ "&minorversion=75"

structure HttpResponse where
  status : Nat
  /-- Holds `some j` when the body parses as JSON, and `none` when
  `r.json()` would raise. -/
  jsonBody : Option JsonVal

/-- `requests.Response.raise_for_status`: raises `HTTPError` iff the
status code is in `[400, 600)`. -/
def raise_for_status (r : HttpResponse) : Except String Unit :=
  if 400 ≤ r.status ∧ r.status < 600 then
    .error (if r.status < 500 then "HTTPError: Client Error"
            else "HTTPError: Server Error")
  else .ok ()

/-- Embedding of `company_info_raw`: load the token file, build the
URL, issue the GET, check the status, parse the body; the parsed JSON
is what gets pretty-printed. -/
def company_info_raw (file : Option JsonVal) (ENV : String)
    (http : String → HttpResponse) : Except String JsonVal :=
  match load_tokens file with
  | .error e => .error e
  | .ok t =>
    match jsonGet t "realm_id" with
    | .error e => .error e
    | .ok realm =>
      match jsonGet t "access_token" with
      | .error e => .error e
      | .ok _access =>
        let r := http (company_info_url ENV (pyStr realm))
        match raise_for_status r with
        | .error e => .error e
        | .ok _ =>
          match r.jsonBody with
          | none => .error "JSONDecodeError"
          | some j => .ok j

/-! ## Helper lemmas about Python dict construction -/

theorem dictInsert_of_not_mem (d : List (String × Option String))
    (k : String) (v : Option String) (h : ∀ p ∈ d, p.1 ≠ k) :
    dictInsert d k v = d ++ [(k, v)] := by
  unfold dictInsert
  rw [if_neg]
  simp only [List.any_eq_true, beq_iff_eq, not_exists]
  intro p hp
  exact h p hp.1 hp.2

theorem foldl_dictInsert_eq_append (ps d : List (String × Option String))
    (h : (d.map Prod.fst ++ ps.map Prod.fst).Nodup) :
    ps.foldl (fun acc p => dictInsert acc p.1 p.2) d = d ++ ps := by
  induction ps generalizing d with
  | nil => simp
  | cons p ps ih =>
    have hdisj : (d.map Prod.fst).Disjoint ((p :: ps).map Prod.fst) :=
      List.disjoint_of_nodup_append h
    have hk : ∀ q ∈ d, q.1 ≠ p.1 := by
      intro q hq hqk
      exact hdisj (List.mem_map_of_mem Prod.fst hq)
        (by simp [← hqk]) |>.elim
    rw [List.foldl_cons, dictInsert_of_not_mem d p.1 p.2 hk]
    have h' : ((d ++ [(p.1, p.2)]).map Prod.fst ++ ps.map Prod.fst).Nodup := by
      simpa [List.append_assoc] using h
    rw [ih (d ++ [(p.1, p.2)]) h']
    simp

theorem pyDict_eq_self (ps : List (String × Option String))
    (h : (ps.map Prod.fst).Nodup) : pyDict ps = ps := by
  simpa [pyDict] using foldl_dictInsert_eq_append ps [] (by simpa using h)

/-! ## Claim theorems -/

/-- Sample valid report used to witness C1: two columns and one data
row, plus a section row that must be dropped. -/
def c1Report : ReportJson :=
  { columns := some [⟨"Date"⟩, ⟨"Amount"⟩],
    rows := some
      [ { type := some "Data",
          colData := some [⟨some "2024-01-01"⟩, ⟨some "100.00"⟩] },
        { type := some "Section", colData := some [⟨some "Total"⟩] } ] }

/-- C1: on a valid report document, `parse_transaction_list` yields
exactly one record per row of type `"Data"` and none for other rows,
and every record's key list equals the report's column titles, in the
report's column order. -/
theorem parse_transaction_list_shape (r : ReportJson) (h : ValidReport r) :
    (parse_transaction_list r).length
      = ((r.rows.getD []).filter (fun row => row.type == some "Data")).length
    ∧ ∀ rec ∈ parse_transaction_list r, rec.map Prod.fst = colTitles r := by
  obtain ⟨hnd, hlen⟩ := h
  refine ⟨by simp [parse_transaction_list], ?_⟩
  intro rec hrec
  simp only [parse_transaction_list, List.mem_map, List.mem_filter] at hrec
  obtain ⟨row, ⟨hrowmem, hrowty⟩, hrec⟩ := hrec
  have hty : row.type = some "Data" := by
    exact beq_iff_eq.mp hrowty
  have hl := hlen row hrowmem hty
  have hzip : (List.zip (colTitles r)
      ((row.colData.getD []).map (fun c => c.value))).map Prod.fst
        = colTitles r := by
    apply List.map_fst_zip
    simp [hl]
  rw [← hrec, pyDict_eq_self _ (by rw [hzip]; exact hnd), hzip]

/-- Witness for C1 at `c1Report`: the validity hypothesis holds by
computation, and the flattener's concrete output matches the spec's
scenario. -/
theorem parse_transaction_list_shape_witness :
    ((parse_transaction_list c1Report).length
      = ((c1Report.rows.getD []).filter
          (fun row => row.type == some "Data")).length
    ∧ ∀ rec ∈ parse_transaction_list c1Report,
        rec.map Prod.fst = colTitles c1Report)
    ∧ parse_transaction_list c1Report
        = [[("Date", some "2024-01-01"), ("Amount", some "100.00")]] :=
  ⟨parse_transaction_list_shape c1Report (by decide), rfl⟩

/-- Report with an empty row list, to witness C9. -/
def c9EmptyReport : ReportJson :=
  { columns := some [⟨"Date"⟩, ⟨"Amount"⟩], rows := some [] }

/-- Report whose rows are all non-data rows, to witness C9. -/
def c9SectionReport : ReportJson :=
  { columns := some [⟨"Date"⟩],
    rows := some [ { type := some "Section" }, { type := none } ] }

/-- C9: a report with zero rows flattens to the empty sequence, and so
does a report containing only rows whose type is not `"Data"`. -/
theorem parse_transaction_list_empty (r : ReportJson) :
    (r.rows.getD [] = [] → parse_transaction_list r = [])
    ∧ ((∀ row ∈ r.rows.getD [], row.type ≠ some "Data") →
        parse_transaction_list r = []) := by
  constructor
  · intro h
    simp [parse_transaction_list, h]
  · intro h
    simp only [parse_transaction_list, List.map_eq_nil_iff,
      List.filter_eq_nil_iff]
    intro row hrow
    simpa using h row hrow

/-- Witness for C9: both boundary cases evaluated on concrete reports. -/
theorem parse_transaction_list_empty_witness :
    parse_transaction_list c9EmptyReport = []
    ∧ parse_transaction_list c9SectionReport = [] :=
  ⟨(parse_transaction_list_empty c9EmptyReport).1 rfl,
   (parse_transaction_list_empty c9SectionReport).2 (by decide)⟩

/-- C2: for every incoming callback query string and every exchange
outcome, the trace of `CB.do_GET` starts with the fixed
`200 "OK, you can close this tab."` response — sent before any exchange
is attempted — and no later event writes to the response, so the
browser sees the same reply whether the exchange succeeds or fails. -/
theorem do_GET_responds_first (qs : List (String × String))
    (o : ExchangeOutcome) :
    ∃ rest, do_GET qs o = CbEvent.respond 200 OK_BODY :: rest
      ∧ ∀ e ∈ rest, e.isRespond = false := by
  cases o with
  | authFail => exact ⟨[], rfl, by intro e he; simp at he⟩
  | exchangeFail =>
    exact ⟨_, rfl, by intro e he; simp at he; subst he; rfl⟩
  | success a r =>
    exact ⟨_, rfl, by
      intro e he; simp at he
      rcases he with h | h <;> subst h <;> rfl⟩

/-- C3: a login invocation performs at most one token exchange, and
only the first pending callback request is ever handled: any further
pending requests leave the trace unchanged. -/
theorem login_single_exchange (authOk : Bool)
    (pending : List CallbackRequest) :
    exchangeCount (login authOk pending) ≤ 1
    ∧ ∀ (r : CallbackRequest) (rest : List CallbackRequest),
        login authOk (r :: rest) = login authOk [r] := by
  constructor
  · cases authOk with
    | false => simp [login, exchangeCount]
    | true =>
      cases pending with
      | nil => simp [login, exchangeCount]
      | cons r rest =>
        rcases r with ⟨qs, o⟩
        cases o <;>
          simp [login, exchangeCount, do_GET, CbEvent.isExchange,
            List.countP_cons]
  · intro r rest
    cases authOk <;> rfl

/-! ## Credential-store lemmas and claims -/

/-- A non-empty environment value wins, whatever the vault holds. -/
theorem _get_secret_env_nonempty (env : String → Option String)
    (vault : String → String → Option String) (name v : String)
    (henv : env ("QBO_" ++ pyUpper name) = some v) (hv : v ≠ "") :
    _get_secret env vault name = some v := by
  simp [_get_secret, pyOr, henv, hv]

/-- An absent or empty environment value falls through to the vault. -/
theorem _get_secret_env_absent_or_empty (env : String → Option String)
    (vault : String → String → Option String) (name : String)
    (henv : env ("QBO_" ++ pyUpper name) = none
      ∨ env ("QBO_" ++ pyUpper name) = some "") :
    _get_secret env vault name = vault SERVICE name := by
  rcases henv with h | h <;> simp [_get_secret, pyOr, h]

/-- Environment with `QBO_CLIENT_ID` set to the empty string. -/
def c4EnvEmpty : String → Option String :=
  fun n => if n = "QBO_CLIENT_ID" then some "" else none

/-- Environment with `QBO_CLIENT_ID` set to `"abc"`. -/
def c4EnvAbc : String → Option String :=
  fun n => if n = "QBO_CLIENT_ID" then some "abc" else none

def c4VaultX : String → String → Option String := fun _ _ => some "x"

def c4VaultY : String → String → Option String := fun _ _ => some "y"

/-- Counterexample to C4's last clause: with `QBO_CLIENT_ID` present
but empty, the result still depends on the vault, so the vault is
consulted although the environment variable is not absent. -/
theorem _get_secret_env_present_vault_consulted :
    c4EnvEmpty "QBO_CLIENT_ID" ≠ none
    ∧ _get_secret c4EnvEmpty c4VaultX "client_id"
        ≠ _get_secret c4EnvEmpty c4VaultY "client_id" := by
  constructor
  · simp [c4EnvEmpty]
  · decide

/-- C4 (amended): a non-empty environment value is preferred over any
vault value, and the vault is consulted only when the environment
variable is absent or empty. -/
theorem _get_secret_resolution (env : String → Option String)
    (vault : String → String → Option String) (name : String) :
    (∀ v, env ("QBO_" ++ pyUpper name) = some v → v ≠ "" →
      _get_secret env vault name = some v)
    ∧ (env ("QBO_" ++ pyUpper name) = none
        ∨ env ("QBO_" ++ pyUpper name) = some "" →
      _get_secret env vault name = vault SERVICE name) :=
  ⟨fun v hv hne => _get_secret_env_nonempty env vault name v hv hne,
   fun h => _get_secret_env_absent_or_empty env vault name h⟩

/-- Witness for C4: `QBO_CLIENT_ID="abc"` beats a vault holding `"x"`,
and an empty `QBO_CLIENT_ID` hands the lookup to the vault. -/
theorem _get_secret_resolution_witness :
    _get_secret c4EnvAbc c4VaultX "client_id" = some "abc"
    ∧ _get_secret c4EnvEmpty c4VaultX "client_id"
        = c4VaultX SERVICE "client_id" :=
  ⟨(_get_secret_resolution c4EnvAbc c4VaultX "client_id").1 "abc"
      (by decide) (by decide),
   (_get_secret_resolution c4EnvEmpty c4VaultX "client_id").2
      (Or.inr (by decide))⟩

/-- Environment with `QBO_CLIENT_SECRET` set to the empty string, for
the C10 witness. -/
def c10Env : String → Option String :=
  fun n => if n = "QBO_CLIENT_SECRET" then some "" else none

def c10Vault : String → String → Option String :=
  fun _ n => if n = "client_secret" then some "hunter2" else none

/-- C10: an environment variable set to the empty string is treated as
absent — the lookup falls through to the vault — and an environment
value overrides the vault only when it is non-empty. -/
theorem _get_secret_empty_env_falls_through (env : String → Option String)
    (vault : String → String → Option String) (name : String) :
    (env ("QBO_" ++ pyUpper name) = some "" →
      _get_secret env vault name = vault SERVICE name)
    ∧ (∀ v, env ("QBO_" ++ pyUpper name) = some v → v ≠ "" →
      _get_secret env vault name = some v) :=
  ⟨fun h => _get_secret_env_absent_or_empty env vault name (Or.inr h),
   fun v hv hne => _get_secret_env_nonempty env vault name v hv hne⟩

/-- Witness for C10: an empty `QBO_CLIENT_SECRET` yields the vault's
value, and a non-empty one would win. -/
theorem _get_secret_empty_env_falls_through_witness :
    _get_secret c10Env c10Vault "client_secret" = some "hunter2"
    ∧ _get_secret c4EnvAbc c4VaultX "client_id" = some "abc" := by
  constructor
  · have h := (_get_secret_empty_env_falls_through c10Env c10Vault
      "client_secret").1 (by decide)
    rw [h]; rfl
  · exact (_get_secret_empty_env_falls_through c4EnvAbc c4VaultX
      "client_id").2 "abc" (by decide) (by decide)

/-! ## Auth-client construction claims -/

/-- Environment/vault pair on which both secrets resolve to a present
but empty value. -/
def c5Env : String → Option String := fun _ => none

def c5Vault : String → String → Option String := fun _ _ => some ""

/-- Counterexample to C5's second half: both secrets resolve to a
present (non-absent) value, yet construction exits with the
configuration error instead of returning an `AuthClient`. -/
theorem get_auth_client_present_but_empty :
    _get_secret c5Env c5Vault "client_id" = some ""
    ∧ _get_secret c5Env c5Vault "client_secret" = some ""
    ∧ get_auth_client none c5Env c5Vault "production"
        "http://localhost:8000/callback" = .error MISSING_KEYS_MSG :=
  ⟨rfl, rfl, rfl⟩

/-- C5 (amended): on first use, a client identifier or secret that is
absent or empty after both lookups makes `get_auth_client` exit with
the fixed remediation message — no `AuthClient` is ever built — while
non-empty values for both yield the constructed `AuthClient`. -/
theorem get_auth_client_checks (env : String → Option String)
    (vault : String → String → Option String) (ENV uri : String) :
    ((pyTruthy (_get_secret env vault "client_id") = false
      ∨ pyTruthy (_get_secret env vault "client_secret") = false) →
      get_auth_client none env vault ENV uri = .error MISSING_KEYS_MSG)
    ∧ (pyTruthy (_get_secret env vault "client_id") = true →
       pyTruthy (_get_secret env vault "client_secret") = true →
      get_auth_client none env vault ENV uri =
        .ok { client_id := (_get_secret env vault "client_id").getD "",
              client_secret := (_get_secret env vault "client_secret").getD "",
              environment := ENV, redirect_uri := uri }) := by
  constructor
  · intro h
    rcases h with h | h <;> simp [get_auth_client, h]
  · intro h1 h2
    simp [get_auth_client, h1, h2]

/-- Witness for C5: missing secrets exit with the remediation message;
concrete non-empty secrets produce the `AuthClient`. -/
theorem get_auth_client_checks_witness :
    get_auth_client none c5Env c5Vault "production"
        "http://localhost:8000/callback" = .error MISSING_KEYS_MSG
    ∧ get_auth_client none c4EnvAbc c10Vault "sandbox"
        "http://localhost:8000/callback" =
      .ok { client_id := "abc", client_secret := "hunter2",
            environment := "sandbox",
            redirect_uri := "http://localhost:8000/callback" } := by
  constructor
  · exact (get_auth_client_checks c5Env c5Vault "production"
      "http://localhost:8000/callback").1 (Or.inl (by decide))
  · have h := (get_auth_client_checks c4EnvAbc c10Vault "sandbox"
      "http://localhost:8000/callback").2 (by decide) (by decide)
    rw [h]; rfl

/-! ## Report-client claims -/

/-- C6: base-URL selection is the same pure function of the environment
in both report operations: `"sandbox"` selects the sandbox host,
anything else the production host, and each full request URL extends
its base host. -/
theorem base_url_pure (ENV realm startDate endDate : String) :
    company_info_base ENV = get_transactions_base ENV
    ∧ (ENV = "sandbox" →
        company_info_base ENV = "https://sandbox-quickbooks.api.intuit.com"
        ∧ get_transactions_base ENV
            = "https://sandbox-quickbooks.api.intuit.com")
    ∧ (ENV ≠ "sandbox" →
        company_info_base ENV = "https://quickbooks.api.intuit.com"
        ∧ get_transactions_base ENV = "https://quickbooks.api.intuit.com")
    ∧ company_info_url ENV realm
        = company_info_base ENV ++ ("/v3/company/" ++ realm ++
            "/companyinfo/" ++ realm ++ "?minorversion=75")
    ∧ get_transactions_url ENV realm startDate endDate
        = get_transactions_base ENV ++ ("/v3/company/" ++ realm ++
            "/reports/TransactionList?start_date=" ++ startDate ++
            "&end_date=" ++ endDate ++ "&minorversion=75") := by
  refine ⟨rfl, ?_, ?_, by simp [company_info_url, String.append_assoc], by
    simp [get_transactions_url, String.append_assoc]⟩
  · intro h
    simp [company_info_base, get_transactions_base, h]
  · intro h
    simp [company_info_base, get_transactions_base, h]

/-- Witness for C6 at the two concrete environments. -/
theorem base_url_pure_witness :
    (company_info_base "sandbox" = "https://sandbox-quickbooks.api.intuit.com"
      ∧ get_transactions_base "sandbox"
          = "https://sandbox-quickbooks.api.intuit.com")
    ∧ (company_info_base "production" = "https://quickbooks.api.intuit.com"
      ∧ get_transactions_base "production"
          = "https://quickbooks.api.intuit.com") :=
  ⟨(base_url_pure "sandbox" "r" "s" "e").2.1 rfl,
   (base_url_pure "production" "r" "s" "e").2.2.1 (by decide)⟩

/-- Token file contents used by the C7 theorems. -/
def c7Tokens : JsonVal := save_tokens "tok" "ref" (some "123")

/-- A non-2xx response that `raise_for_status` does not reject. -/
def c7Resp : HttpResponse := { status := 301, jsonBody := some (.obj []) }

/-- Counterexample to C7 as stated: a response with the non-2xx status
301 (reachable when redirects cannot be followed) passes
`raise_for_status`, and the operation succeeds and prints the body. -/
theorem company_info_raw_non2xx_succeeds :
    (c7Resp.status < 200 ∨ 300 ≤ c7Resp.status)
    ∧ company_info_raw (some c7Tokens) "production" (fun _ => c7Resp)
        = .ok (.obj []) :=
  ⟨Or.inr (by decide), rfl⟩

/-- C7 (amended): every remote response with a 4xx or 5xx status —
the statuses `raise_for_status` checks — makes Company Info retrieval
fail with an error before any result is produced; there is no retry,
the single response decides the invocation. -/
theorem company_info_raw_error_status (file : Option JsonVal)
    (ENV : String) (resp : HttpResponse) (h4 : 400 ≤ resp.status)
    (h6 : resp.status < 600) :
    ∃ e, company_info_raw file ENV (fun _ => resp) = .error e := by
  have hraise : raise_for_status resp
      = .error (if resp.status < 500 then "HTTPError: Client Error"
                else "HTTPError: Server Error") := by
    simp [raise_for_status, h4, h6]
  cases file with
  | none => exact ⟨_, rfl⟩
  | some t =>
    cases hr : jsonGet t "realm_id" with
    | error e => exact ⟨e, by simp [company_info_raw, load_tokens, hr]⟩
    | ok realm =>
      cases ha : jsonGet t "access_token" with
      | error e =>
        exact ⟨e, by simp [company_info_raw, load_tokens, hr, ha]⟩
      | ok access =>
        exact ⟨if resp.status < 500 then "HTTPError: Client Error"
               else "HTTPError: Server Error", by
          simp [company_info_raw, load_tokens, hr, ha, hraise]⟩

/-- Witness for C7 at a concrete 404 response. -/
theorem company_info_raw_error_status_witness :
    ∃ e, company_info_raw (some c7Tokens) "production"
      (fun _ => { status := 404, jsonBody := some (.obj []) }) = .error e :=
  company_info_raw_error_status (some c7Tokens) "production"
    { status := 404, jsonBody := some (.obj []) } (by norm_num) (by norm_num)

/-! ## Token-file round trip (C8) -/

/-- C8: saving a token record fully overwrites any prior file content,
and loading the file back (the way `company_info_raw` does) recovers
every field of the saved record. -/
theorem token_file_roundtrip (access refresh : String)
    (realm : Option String) (prior prior' : Option JsonVal) :
    write_token_file prior access refresh realm
        = write_token_file prior' access refresh realm
    ∧ load_tokens (write_token_file prior access refresh realm)
        = .ok (save_tokens access refresh realm)
    ∧ jsonGet (save_tokens access refresh realm) "access_token"
        = .ok (.str access)
    ∧ jsonGet (save_tokens access refresh realm) "refresh_token"
        = .ok (.str refresh)
    ∧ jsonGet (save_tokens access refresh realm) "realm_id"
        = .ok (optStrJson realm) :=
  ⟨rfl, rfl, rfl, rfl, rfl⟩

end QboReceipt
